import Mathlib

/-!
Shallow embedding of the idea-collision-engine backend (Go).

Sources embedded here:
* the collision engine (`internal/collision/engine.go`, reproduced in the
  repository README): primary-domain selection, candidate filtering,
  interest/project relevance, novelty, anti-echo-chamber composite,
  weighted-random selection, quality score, enrichment, connection hash;
* the Redis rate limiter (`CheckRateLimit`, `GetRateLimitStatus`);
* the middleware (`UsageLimitMiddleware`, `RateLimitMiddleware`);
* the Postgres `RateCollision` update and the corresponding handler.

Go `float64` arithmetic is modelled with `ℚ` (all constants in the source
are decimal literals and every operation used is exact on rationals).
Sources of process randomness (`rand.Float64`, `rand.Intn`, `math.Exp`
weights, `uuid.New`, `time.Now`) are passed as explicit parameters.
-/

namespace Collision

/-! ## Go string primitives (ASCII-faithful models of the `strings` package) -/

/-- `strings.ToLower` (the source data is ASCII; `Char.toLower` lowers ASCII). -/
def goToLower (s : String) : String := s.map Char.toLower

/-- Contiguous-sublist test on character lists, used to model `strings.Contains`. -/
def listIsInfix (sub hay : List Char) : Bool :=
  (List.range (hay.length + 1)).any (fun i => sub.isPrefixOf (hay.drop i))

/-- `strings.Contains s substr`. -/
def goContains (s substr : String) : Bool := listIsInfix substr.toList s.toList

/-- `strings.Fields`: split on whitespace, dropping empty pieces. -/
def goFields (s : String) : List String :=
  (s.split (fun c => c.isWhitespace)).filter (fun w => w ≠ "")

/-- Helper for `strings.Title`: capitalize a letter that follows a non-letter. -/
def goTitleAux : Bool → List Char → List Char
  | _, [] => []
  | boundary, c :: rest =>
      (if boundary then c.toUpper else c) :: goTitleAux (!c.isAlpha) rest

/-- `strings.Title` (word-initial capitalization). -/
def goTitle (s : String) : String := ⟨goTitleAux true s.toList⟩

/-! ## Data model (`internal/models/models.go`) -/

/-- `models.CollisionDomain`. -/
structure CollisionDomain where
  ID : String
  Name : String
  Category : String
  Description : String
  Examples : List String
  Keywords : List String
  Intensity : List String
  Tier : String
deriving DecidableEq

/-- `models.CollisionInput`. -/
structure CollisionInput where
  UserInterests : List String
  CurrentProject : String
  ProjectType : String
  CollisionIntensity : String
deriving DecidableEq

/-- `models.CollisionResult`.  `Timestamp` is modelled as an integer clock
value (the Go `time.Time` is opaque to every property proved here). -/
structure CollisionResult where
  ID : String
  PrimaryDomain : String
  CollisionDomain : String
  Connection : String
  SparkQuestions : List String
  Examples : List String
  NextSteps : List String
  QualityScore : ℚ
  Timestamp : Int
  Rating : Option Int
  Notes : Option String
deriving DecidableEq

/-- `models.UserUsage` (fields relevant to the quota logic). -/
structure UserUsage where
  CollisionCount : Int
  ResetDate : Int
deriving DecidableEq

/-- `models.UsageLimits` — a Go map lookup; a missing key yields the zero
value `0`, exactly as `models.UsageLimits[tier]` does. -/
def usageLimits (tier : String) : Int :=
  if tier = "free" then 5
  else if tier = "pro" then -1
  else if tier = "team" then -1
  else 0

/-! ## Scorer (`engine.go`) -/

/-- Per-interest accumulation inside `calculateInterestRelevance`:
name +3.0, category +2.0, each bidirectionally-containing keyword +1.0,
description +0.5, capped at 3.0. -/
def interestScore (domain : CollisionDomain) (interest : String) : ℚ :=
  let interestLower := goToLower interest
  let s1 : ℚ := if goContains (goToLower domain.Name) interestLower then 3 else 0
  let s2 : ℚ := s1 + (if goContains (goToLower domain.Category) interestLower then 2 else 0)
  let s3 : ℚ := s2 + (domain.Keywords.map (fun keyword =>
      if goContains (goToLower keyword) interestLower ||
         goContains interestLower (goToLower keyword) then (1 : ℚ) else 0)).sum
  let s4 : ℚ := s3 + (if goContains (goToLower domain.Description) interestLower then 1/2 else 0)
  min s4 3

/-- `calculateInterestRelevance`. -/
def calculateInterestRelevance (interests : List String) (domain : CollisionDomain) : ℚ :=
  if interests = [] then 0
  else
    let score := (interests.map (interestScore domain)).sum
    let totalPossible : ℚ := 3 * interests.length
    score / totalPossible

/-- The project-type → category affinity table in `calculateDomainRelevance`. -/
def relevanceMap (projectType : String) : Option (List String) :=
  if projectType = "product" then some ["design", "technology", "science", "crafts"]
  else if projectType = "content" then some ["arts", "media", "cultural", "entertainment"]
  else if projectType = "business" then some ["social systems", "economics", "human systems"]
  else if projectType = "research" then some ["science", "mathematics", "philosophy"]
  else none

/-- `calculateDomainRelevance` (the spec's project relevance `R_p`):
+0.3 once on a category affinity hit, +0.2 per keyword in the project text,
+0.1 per example sharing a word of length > 3 with the project text,
clamped to 1. -/
def calculateDomainRelevance (input : CollisionInput) (domain : CollisionDomain) : ℚ :=
  let projectLower := goToLower input.CurrentProject
  let projectTypeLower := goToLower input.ProjectType
  let categoryLower := goToLower domain.Category
  let s1 : ℚ :=
    match relevanceMap projectTypeLower with
    | some categories =>
        if categories.any (fun cat => goContains categoryLower cat) then 3/10 else 0
    | none => 0
  let s2 : ℚ := s1 + (domain.Keywords.map (fun keyword =>
      if goContains projectLower (goToLower keyword) then (2/10 : ℚ) else 0)).sum
  let s3 : ℚ := s2 + (domain.Examples.map (fun exmpl =>
      let exampleLower := goToLower exmpl
      if (goFields projectLower).any (fun word =>
          word.length > 3 && goContains exampleLower word) then (1/10 : ℚ) else 0)).sum
  min s3 1

/-- The "inherently unexpected" markers of `calculateNoveltyScore`. -/
def unexpectedCategories : List String :=
  ["quantum", "chaos", "mythology", "ancient", "radical"]

/-- `calculateNoveltyScore`: `max 0.2 (1 − R_i)`, boosted ×1.2 on an
unexpected marker, clamped to 1. -/
def calculateNoveltyScore (interests : List String) (domain : CollisionDomain) : ℚ :=
  let relevance := calculateInterestRelevance interests domain
  let novelty : ℚ := max (2/10) (1 - relevance)
  let categoryLower := goToLower (domain.Category ++ " " ++ domain.Name ++ " " ++ domain.Description)
  let boosted : ℚ :=
    if unexpectedCategories.any (fun unexpected => goContains categoryLower unexpected)
    then novelty * (12/10) else novelty
  min boosted 1

/-- `calculateAntiEchoChamberScore`: the intensity-weighted composite.
The Go map lookup falls back to the moderate weights for unknown keys. -/
def calculateAntiEchoChamberScore (relevance novelty : ℚ) (intensity : String) : ℚ :=
  let weight : ℚ × ℚ :=
    if intensity = "gentle" then (6/10, 4/10)
    else if intensity = "moderate" then (4/10, 6/10)
    else if intensity = "radical" then (2/10, 8/10)
    else (4/10, 6/10)
  relevance * weight.1 + novelty * weight.2

/-- The complexity vocabulary of `assessProjectComplexity`. -/
def complexityIndicators : List String :=
  ["system", "platform", "algorithm", "network", "framework",
   "architecture", "optimization", "intelligence", "automation",
   "integration", "scalable", "distributed", "analytics"]

/-- `assessProjectComplexity`: vocabulary hits / 5, clamped to 1. -/
def assessProjectComplexity (project : String) : ℚ :=
  let projectLower := goToLower project
  let matchCount : ℚ :=
    ((complexityIndicators.filter (fun indicator => goContains projectLower indicator)).length : ℚ)
  min 1 (matchCount / 5)

/-- `assessDomainDepth`. -/
def assessDomainDepth (domain : CollisionDomain) : ℚ :=
  let s1 : ℚ := min (3/10) ((domain.Keywords.length : ℚ) / 10)
  let s2 : ℚ := s1 + min (3/10) ((domain.Examples.length : ℚ) / 5)
  let s3 : ℚ := s2 + min (2/10) ((domain.Description.length : ℚ) / 200)
  let s4 : ℚ := s3 + (if domain.Tier = "premium" then 2/10 else 0)
  min 1 s4

/-- `calculateQualityScore`.  `noise` stands for the `rand.Float64()` draw;
the Go source adds `(noise − 0.5) * 5`, then clamps to `[0, 100]`. -/
def calculateQualityScore (input : CollisionInput) (domain : CollisionDomain) (noise : ℚ) : ℚ :=
  let relevance := calculateDomainRelevance input domain
  let novelty := calculateNoveltyScore input.UserInterests domain
  let projectComplexity := assessProjectComplexity input.CurrentProject
  let domainDepth := assessDomainDepth domain
  let score := (relevance * (3/10) + novelty * (3/10) +
                projectComplexity * (2/10) + domainDepth * (2/10)) * 100
  let score2 := score + (noise - 1/2) * 5
  max 0 (min 100 score2)

/-! ## Selector (`engine.go`) -/

/-- `isIntensityCompatible`: the domain's intensity list contains the
requested intensity. -/
def isIntensityCompatible (domain : CollisionDomain) (intensity : String) : Bool :=
  domain.Intensity.any (fun supportedIntensity => supportedIntensity == intensity)

/-- `selectPrimaryDomain`: the catalog domain maximizing interest relevance
(strict improvement, first maximum wins); falls back to the capitalized
first interest, or `"General Innovation"` on empty interests. -/
def selectPrimaryDomain (domains : List CollisionDomain) (interests : List String) : String :=
  if interests = [] then "General Innovation"
  else
    let best := domains.foldl (fun (acc : String × ℚ) domain =>
      let score := calculateInterestRelevance interests domain
      if acc.2 < score then (domain.Name, score) else acc) ("", 0)
    if best.1 = "" then goTitle (interests.headD "") else best.1

/-- `filterCandidateDomains`: drop the primary domain and intensity-incompatible
domains. -/
def filterCandidateDomains (domains : List CollisionDomain) (input : CollisionInput)
    (primaryDomain : String) : List CollisionDomain :=
  domains.filter (fun domain =>
    !(domain.Name == primaryDomain) && isIntensityCompatible domain input.CollisionIntensity)

/-- `generateReasoningSnippet`. -/
def generateReasoningSnippet (project : String) (domain : CollisionDomain)
    (relevance novelty : ℚ) : String :=
  if 7/10 < novelty then
    "Exploring " ++ domain.Name ++ " offers an unexpected lens for " ++ project ++
      ", challenging conventional approaches through " ++ goToLower domain.Category ++ " principles."
  else if 6/10 < relevance then
    "The principles of " ++ domain.Name ++ " can directly enhance " ++ project ++
      " by applying " ++ goToLower domain.Category ++ " methodologies."
  else
    "Drawing from " ++ domain.Name ++ " creates novel opportunities for " ++ project ++
      " through cross-disciplinary insight."

/-- `DomainMatch`. -/
structure DomainMatch where
  Domain : CollisionDomain
  RelevanceScore : ℚ
  NoveltyScore : ℚ
  OverallScore : ℚ
  Reasoning : String
deriving DecidableEq

/-- The sentinel returned by `selectWithRandomness` on an empty candidate
list (unset Go struct fields are zero values). -/
def fallbackMatch : DomainMatch :=
  { Domain :=
      { ID := "", Name := "Innovation", Category := "General",
        Description := "General innovative thinking",
        Examples := [], Keywords := [], Intensity := [], Tier := "" },
    RelevanceScore := 0, NoveltyScore := 0, OverallScore := 0,
    Reasoning := "Fallback domain for creative exploration" }

/-- The cumulative-weight selection loop of `selectWithRandomness`:
walk indices `i`, accumulating `w i`, and return the first element whose
cumulative weight reaches `target`; `none` when the pool is exhausted. -/
def pickByWeight (pool : List DomainMatch) (w : Nat → ℚ) (target : ℚ) :
    Nat → Nat → ℚ → Option DomainMatch
  | 0, _, _ => none
  | rem + 1, i, cumulative =>
      let cumulative2 := cumulative + w i
      if target ≤ cumulative2 then pool[i]?
      else pickByWeight pool w target rem (i + 1) cumulative2

/-- `selectWithRandomness`.  `w i` stands for the Go weight
`math.Exp(-float64(i) * 0.5)` (a transcendental value; every theorem below
holds for an arbitrary weight function, hence in particular for it), and
`u` stands for the `rand.Float64()` draw, so the Go target
`rand.Float64() * totalWeight` is `u * totalWeight`. -/
def selectWithRandomness (domainMatches : List DomainMatch) (intensity : String)
    (w : Nat → ℚ) (u : ℚ) : DomainMatch :=
  match domainMatches with
  | [] => fallbackMatch
  | m0 :: _ =>
    let poolSize0 : Nat :=
      if intensity = "gentle" then 3
      else if intensity = "moderate" then 5
      else if intensity = "radical" then 8
      else 5
    let poolSize := if poolSize0 > domainMatches.length then domainMatches.length else poolSize0
    let weights := (List.range poolSize).map w
    let totalWeight := weights.sum
    let target := u * totalWeight
    match pickByWeight domainMatches w target poolSize 0 0 with
    | some m => m
    | none => m0

/-- `selectCollisionDomain`: filter, score, sort descending by overall score,
then draw with weighted randomness.  Go's `sort.Slice` is an unstable
comparison sort; it is modelled by `List.mergeSort` with the same
comparator (every property proved below depends only on the output being
a permutation ordered by that comparator). -/
def selectCollisionDomain (domains : List CollisionDomain) (input : CollisionInput)
    (primaryDomain : String) (w : Nat → ℚ) (u : ℚ) : CollisionDomain × String :=
  let candidates := filterCandidateDomains domains input primaryDomain
  let domainMatches := candidates.map (fun domain =>
    let relevance := calculateDomainRelevance input domain
    let novelty := calculateNoveltyScore input.UserInterests domain
    let overall := calculateAntiEchoChamberScore relevance novelty input.CollisionIntensity
    let reasoning := generateReasoningSnippet input.CurrentProject domain relevance novelty
    DomainMatch.mk domain relevance novelty overall reasoning)
  let sorted := domainMatches.mergeSort (fun a b => b.OverallScore ≤ a.OverallScore)
  let selected := selectWithRandomness sorted input.CollisionIntensity w u
  (selected.Domain, selected.Reasoning)

/-! ## Enricher (`engine.go`) -/

/-- `generateSparkQuestions`.  `kidx` stands for the `rand.Intn(len(Keywords))`
draw (reduced modulo the keyword count). -/
def generateSparkQuestions (input : CollisionInput) (domain : CollisionDomain)
    (kidx : Nat) : List String :=
  let questions :=
    ["How might " ++ goToLower domain.Name ++ " principles reshape your approach to " ++
       input.CurrentProject ++ "?",
     "What would " ++ input.CurrentProject ++ " look like if designed using " ++
       domain.Category ++ " patterns?",
     "Which aspects of " ++ domain.Name ++ " could introduce unexpected benefits to your " ++
       input.ProjectType ++ " project?"]
  if domain.Keywords.length > 0 then
    let keyword := domain.Keywords.getD (kidx % domain.Keywords.length) ""
    questions ++ ["How could the concept of '" ++ keyword ++ "' unlock new possibilities in your work?"]
  else questions

/-- `contextualizeExample`. -/
def contextualizeExample (exmpl : String) : String :=
  let exampleLower := goToLower exmpl
  if goContains exampleLower "system" then "could inspire new system architectures"
  else if goContains exampleLower "pattern" then "might reveal new design patterns"
  else if goContains exampleLower "flow" then "could optimize process flows"
  else "offers fresh perspective on implementation"

/-- `adaptExamples`. -/
def adaptExamples (input : CollisionInput) (domain : CollisionDomain) : List String :=
  domain.Examples.map (fun exmpl =>
    exmpl ++ " → Applied to " ++ input.ProjectType ++ ": " ++ contextualizeExample exmpl)

/-- `generateNextSteps`. -/
def generateNextSteps (input : CollisionInput) (domain : CollisionDomain) : List String :=
  let steps :=
    ["Research core " ++ domain.Name ++ " principles and identify 3 that could apply to " ++
       input.CurrentProject,
     "Find experts or resources in " ++ domain.Name ++ " to deepen understanding",
     "Prototype one small aspect of " ++ input.CurrentProject ++ " using " ++ domain.Name ++
       "-inspired approaches",
     "Document insights and unexpected connections discovered"]
  if input.CollisionIntensity = "radical" then
    steps ++ ["Challenge fundamental assumptions about " ++ input.ProjectType ++ " using " ++
       domain.Name ++ " perspective"]
  else steps

/-- `enrichCollisionResult` (functional form: returns the updated result). -/
def enrichCollisionResult (result : CollisionResult) (input : CollisionInput)
    (domain : CollisionDomain) (kidx : Nat) : CollisionResult :=
  { result with
    SparkQuestions := generateSparkQuestions input domain kidx,
    Examples := adaptExamples input domain,
    NextSteps := generateNextSteps input domain }

/-- `GenerateCollision`.  `newId` stands for `uuid.New().String()`, `now` for
`time.Now()`, `w`/`u`/`noise`/`kidx` for the random draws.  The Go function
always returns a `nil` error, modelled by always returning `Except.ok`. -/
def generateCollision (domains : List CollisionDomain) (input : CollisionInput)
    (w : Nat → ℚ) (u noise : ℚ) (kidx : Nat) (newId : String) (now : Int) :
    Except String CollisionResult :=
  let primaryDomain := selectPrimaryDomain domains input.UserInterests
  let selected := selectCollisionDomain domains input primaryDomain w u
  let collisionDomain := selected.1
  let reasoning := selected.2
  let result : CollisionResult :=
    { ID := newId,
      PrimaryDomain := primaryDomain,
      CollisionDomain := collisionDomain.Name,
      Connection := reasoning,
      SparkQuestions := [], Examples := [], NextSteps := [],
      QualityScore := calculateQualityScore input collisionDomain noise,
      Timestamp := now, Rating := none, Notes := none }
  Except.ok (enrichCollisionResult result input collisionDomain kidx)

/-- The `GenerateCollision` handler's dispatch on the engine's error
(`internal/handlers/collision.go`): a non-nil error produces the
`collision_generation_failed` 500 response. -/
inductive GenOutcome where
  | success (r : CollisionResult)
  | genFailed
deriving DecidableEq

/-- The handler branch on the engine result. -/
def handleGenerateResult (res : Except String CollisionResult) : GenOutcome :=
  match res with
  | .error _ => .genFailed
  | .ok r => .success r

/-! ## Redis rate limiter (`internal/database/redis.go`) -/

/-- One member of the per-principal sorted set `rate:limit:{user}:{W}`:
`member` is the nanosecond timestamp, `score` the epoch-second timestamp. -/
structure RLEntry where
  member : Int
  score : Int
deriving DecidableEq

/-- The sorted-set key state; `ttl` records the last `EXPIRE` applied. -/
structure RLState where
  entries : List RLEntry
  ttl : Int
deriving DecidableEq

/-- `ZREMRANGEBYSCORE key 0 hi`: drop every entry with score in `[0, hi]`. -/
def zRemRangeByScore (entries : List RLEntry) (hi : Int) : List RLEntry :=
  entries.filter (fun e => decide (¬ (0 ≤ e.score ∧ e.score ≤ hi)))

/-- `ZADD`: update the score of an existing member, else append. -/
def zAdd (entries : List RLEntry) (m s : Int) : List RLEntry :=
  if entries.any (fun e => e.member == m) then
    entries.map (fun e => if e.member == m then ⟨m, s⟩ else e)
  else entries ++ [⟨m, s⟩]

/-- `CheckRateLimit`: evict entries older than the window, deny when the
count has reached the limit, otherwise record `now` (second-score,
nanosecond-member) and set the key TTL to the window length.
`nano` stands for `now.UnixNano()`. -/
def CheckRateLimit (st : RLState) (now nano : Int) (windowSeconds limit : Int) :
    Bool × RLState :=
  let windowStart := now - windowSeconds
  let entries := zRemRangeByScore st.entries windowStart
  let count : Int := entries.length
  if limit ≤ count then (false, { st with entries := entries })
  else (true, { entries := zAdd entries nano now, ttl := windowSeconds })

/-- `GetRateLimitStatus`: returns `(remaining, resetSeconds)` after evicting
expired entries; remaining is `limit − count` floored at 0, reset is the
time until the oldest entry leaves the window, floored at 0. -/
def GetRateLimitStatus (st : RLState) (now : Int) (windowSeconds limit : Int) :
    Int × Int :=
  let entries := zRemRangeByScore st.entries (now - windowSeconds)
  let count : Int := entries.length
  let remaining := max (limit - count) 0
  let resetTime :=
    if 0 < count then
      let oldestScore := ((entries.map (fun e => e.score)).min?).getD 0
      max (oldestScore + windowSeconds - now) 0
    else 0
  (remaining, resetTime)

/-! ## Middleware (`internal/middleware/ratelimit.go`) -/

/-- `middleware.RateLimitConfig`. -/
structure RateLimitConfig where
  WindowSeconds : Int
  MaxRequests : Int
  SkipPremium : Bool
deriving DecidableEq

/-- Outcome of `UsageLimitMiddleware`.  `next` carries the usage record the
Go code stores in `c.Locals("user_usage", usage)`; `nilPanic` marks the Go
nil-pointer dereference of `usage.CollisionCount` when `usage == nil`. -/
inductive UsageOutcome where
  | next (usage : Option UserUsage)
  | deny (err : String) (code : Int)
  | serverError (err : String) (code : Int)
  | nilPanic
deriving DecidableEq

/-- The tail of `UsageLimitMiddleware`: `limit := models.UsageLimits[tier]`,
then `if limit > 0 && usage.CollisionCount >= limit` deny with 402.
Go's `&&` short-circuits, so `usage` is dereferenced only when
`limit > 0`; a `nil` usage then panics. -/
def usageDecision (tier : String) (usage : Option UserUsage) : UsageOutcome :=
  let limit := usageLimits tier
  if 0 < limit then
    match usage with
    | none => .nilPanic
    | some u => if limit ≤ u.CollisionCount then .deny "usage_limit_exceeded" 402
                else .next usage
  else .next usage

/-- `UsageLimitMiddleware`.  `cacheRes` is the result of
`redis.GetCachedUserUsage` — per its source, a Redis miss (`redis.Nil`)
yields `Except.ok none` (Go `nil, nil`), and only a genuine Redis failure
yields `Except.error`.  `dbRes` is the result of `db.GetUserUsage`.
The middleware consults the database only on a cache *error*; a successful
cache reply (hit or miss) is used as-is. -/
def usageLimitMiddleware (tier : String) (cacheRes : Except Unit (Option UserUsage))
    (dbRes : Except Unit UserUsage) : UsageOutcome :=
  if tier == "pro" || tier == "team" then .next none
  else
    match cacheRes with
    | .error _ =>
        match dbRes with
        | .error _ => .serverError "usage_check_failed" 500
        | .ok u => usageDecision tier (some u)
    | .ok usage => usageDecision tier usage

/-- Outcome of `RateLimitMiddleware`. -/
inductive RLOutcome where
  | next
  | deny (err : String) (code : Int)
deriving DecidableEq

/-- `RateLimitMiddleware` decision, with the headers elided: skip for
premium tiers when configured; on a Redis error log and fail open
(the second component records whether the failure log line was emitted);
otherwise follow the `CheckRateLimit` verdict. -/
def rateLimitMiddleware (tier : String) (config : RateLimitConfig)
    (checkRes : Except Unit Bool) : RLOutcome × Bool :=
  if config.SkipPremium && (tier == "pro" || tier == "team") then (.next, false)
  else
    match checkRes with
    | .error _ => (.next, true)
    | .ok allowed =>
        if allowed then (.next, false)
        else (.deny "rate_limit_exceeded" 429, false)

/-! ## Sessions, the generate pipeline, and rating
(`cmd/server/main.go` route order, `internal/handlers/collision.go`,
`internal/database/postgres.go`) -/

/-- `models.CollisionSession` (rating fields denormalized, as in the
sessions table). -/
structure CollisionSession where
  ID : String
  UserID : String
  InputData : CollisionInput
  CollisionResult : CollisionResult
  UserRating : Option Int
  ExplorationNotes : Option String
deriving DecidableEq

/-- The state a generation request can mutate: the sessions table and the
calling principal's weekly usage count. -/
structure ServerState where
  sessions : List CollisionSession
  usageCount : Int
deriving DecidableEq

/-- Outcome of the full `/collisions/generate` chain. -/
inductive PipelineOutcome where
  | response (r : CollisionResult)
  | errorResp (err : String) (code : Int)
  | panicked
deriving DecidableEq

/-- The `/collisions/generate` chain in route order
(auth → `UsageLimitMiddleware` → `RateLimitMiddleware` → handler):
a middleware denial returns its error without running the rest, and the
handler inserts the session and increments free-tier usage after a
successful generation. -/
def generatePipeline (st : ServerState) (tier userId : String)
    (cacheRes : Except Unit (Option UserUsage)) (dbRes : Except Unit UserUsage)
    (config : RateLimitConfig) (checkRes : Except Unit Bool)
    (domains : List CollisionDomain) (input : CollisionInput)
    (w : Nat → ℚ) (u noise : ℚ) (kidx : Nat) (newId sessionId : String) (now : Int) :
    PipelineOutcome × ServerState :=
  match usageLimitMiddleware tier cacheRes dbRes with
  | .deny e c => (.errorResp e c, st)
  | .serverError e c => (.errorResp e c, st)
  | .nilPanic => (.panicked, st)
  | .next _ =>
    match (rateLimitMiddleware tier config checkRes).1 with
    | .deny e c => (.errorResp e c, st)
    | .next =>
      match generateCollision domains input w u noise kidx newId now with
      | .error _ => (.errorResp "collision_generation_failed" 500, st)
      | .ok r =>
        let session : CollisionSession :=
          { ID := sessionId, UserID := userId, InputData := input,
            CollisionResult := r, UserRating := none, ExplorationNotes := none }
        (.response r,
         { sessions := st.sessions ++ [session],
           usageCount := if tier == "free" then st.usageCount + 1 else st.usageCount })

/-- `PostgresDB.RateCollision`: `UPDATE collision_sessions SET user_rating,
exploration_notes WHERE id AND user_id`.  The Go method ignores the
affected-row count and returns a `nil` error whether or not any row
matched. -/
def dbRateCollision (sessions : List CollisionSession) (sessionID userID : String)
    (rating : Int) (notes : Option String) : List CollisionSession :=
  sessions.map (fun s =>
    if s.ID == sessionID && s.UserID == userID then
      { s with UserRating := some rating, ExplorationNotes := notes }
    else s)

/-- Outcome of the `RateCollision` handler. -/
inductive RateOutcome where
  | badRequest (err : String) (code : Int)
  | serverError (err : String) (code : Int)
  | success (msg : String)
deriving DecidableEq

/-- The `RateCollision` handler: 400 on an unparsable session id, 400 on a
rating outside `[1, 5]` (the validator's `min=1,max=5`), 500 only on a
database execution failure (`dbFails`), and otherwise the success
message — the update's matched-row count is never inspected. -/
def rateCollisionHandler (sessions : List CollisionSession)
    (sessionIDStr userID : String) (validSessionID : Bool)
    (rating : Int) (notes : Option String) (dbFails : Bool) :
    RateOutcome × List CollisionSession :=
  if !validSessionID then (.badRequest "invalid_session_id" 400, sessions)
  else if !(decide (1 ≤ rating) && decide (rating ≤ 5)) then
    (.badRequest "validation_failed" 400, sessions)
  else if dbFails then (.serverError "rating_failed" 500, sessions)
  else (.success "Rating saved successfully",
        dbRateCollision sessions sessionIDStr userID rating notes)

/-! ## SHA-256 (`crypto/sha256`, FIPS 180-4) and `generateConnectionHash`

32-bit words are `Nat` values reduced modulo `2^32`; bytes are `Nat`
values below 256. -/

/-- Reduce to a 32-bit word. -/
def w32 (n : Nat) : Nat := n % 4294967296

/-- 32-bit right rotation (of a word already below `2^32`). -/
def rotr32 (n x : Nat) : Nat := w32 ((x >>> n) ||| (x <<< (32 - n)))

/-- FIPS upper-case sigma 0. -/
def sigmaBig0 (x : Nat) : Nat := rotr32 2 x ^^^ rotr32 13 x ^^^ rotr32 22 x

/-- FIPS upper-case sigma 1. -/
def sigmaBig1 (x : Nat) : Nat := rotr32 6 x ^^^ rotr32 11 x ^^^ rotr32 25 x

/-- FIPS lower-case sigma 0. -/
def sigmaSmall0 (x : Nat) : Nat := rotr32 7 x ^^^ rotr32 18 x ^^^ (x >>> 3)

/-- FIPS lower-case sigma 1. -/
def sigmaSmall1 (x : Nat) : Nat := rotr32 17 x ^^^ rotr32 19 x ^^^ (x >>> 10)

/-- FIPS Ch (the complement is XOR with the all-ones word). -/
def chFn (x y z : Nat) : Nat := (x &&& y) ^^^ ((x ^^^ 4294967295) &&& z)

/-- FIPS Maj. -/
def majFn (x y z : Nat) : Nat := (x &&& y) ^^^ (x &&& z) ^^^ (y &&& z)

/-- The 64 SHA-256 round constants (decimal). -/
def K256 : List Nat :=
  [1116352408, 1899447441, 3049323471, 3921009573, 961987163,
   1508970993, 2453635748, 2870763221, 3624381080, 310598401,
   607225278, 1426881987, 1925078388, 2162078206, 2614888103,
   3248222580, 3835390401, 4022224774, 264347078, 604807628,
   770255983, 1249150122, 1555081692, 1996064986, 2554220882,
   2821834349, 2952996808, 3210313671, 3336571891, 3584528711,
   113926993, 338241895, 666307205, 773529912, 1294757372,
   1396182291, 1695183700, 1986661051, 2177026350, 2456956037,
   2730485921, 2820302411, 3259730800, 3345764771, 3516065817,
   3600352804, 4094571909, 275423344, 430227734, 506948616,
   659060556, 883997877, 958139571, 1322822218, 1537002063,
   1747873779, 1955562222, 2024104815, 2227730452, 2361852424,
   2428436474, 2756734187, 3204031479, 3329325298]

/-- The eight 32-bit working variables. -/
structure Sha8 where
  a : Nat
  b : Nat
  c : Nat
  d : Nat
  e : Nat
  f : Nat
  g : Nat
  h : Nat
deriving DecidableEq

/-- The SHA-256 initial hash value (decimal). -/
def sha256Init : Sha8 :=
  ⟨1779033703, 3144134277, 1013904242, 2773480762,
   1359893119, 2600822924, 528734635, 1541459225⟩

/-- Merkle–Damgård padding: `0x80`, zeros to 56 mod 64, then the bit length
as 8 big-endian bytes. -/
def sha256Pad (msg : List Nat) : List Nat :=
  let L := msg.length
  let zeros := (119 - L % 64) % 64
  msg ++ [128] ++ List.replicate zeros 0 ++
    (List.range 8).map (fun i => ((8 * L) >>> (8 * (7 - i))) % 256)

/-- Big-endian word `j` of a 64-byte block. -/
def bytesToWord (block : List Nat) (j : Nat) : Nat :=
  (block.getD (4 * j) 0) <<< 24 ||| (block.getD (4 * j + 1) 0) <<< 16 |||
  (block.getD (4 * j + 2) 0) <<< 8 ||| block.getD (4 * j + 3) 0

/-- Extend the 16 block words to the 64-word message schedule. -/
def extendSchedule (ws0 : List Nat) : List Nat :=
  (List.range 48).foldl (fun ws _ =>
    let i := ws.length
    ws ++ [w32 (sigmaSmall1 (ws.getD (i - 2) 0) + ws.getD (i - 7) 0 +
                sigmaSmall0 (ws.getD (i - 15) 0) + ws.getD (i - 16) 0)]) ws0

/-- One compression round with round constant and schedule word `kw`. -/
def compressRound (s : Sha8) (kw : Nat × Nat) : Sha8 :=
  let t1 := w32 (s.h + sigmaBig1 s.e + chFn s.e s.f s.g + kw.1 + kw.2)
  let t2 := w32 (sigmaBig0 s.a + majFn s.a s.b s.c)
  ⟨w32 (t1 + t2), s.a, s.b, s.c, w32 (s.d + t1), s.e, s.f, s.g⟩

/-- Process one 64-byte block. -/
def processBlock (H : Sha8) (block : List Nat) : Sha8 :=
  let ws := extendSchedule ((List.range 16).map (bytesToWord block))
  let s := (K256.zip ws).foldl compressRound H
  ⟨w32 (H.a + s.a), w32 (H.b + s.b), w32 (H.c + s.c), w32 (H.d + s.d),
   w32 (H.e + s.e), w32 (H.f + s.f), w32 (H.g + s.g), w32 (H.h + s.h)⟩

/-- `sha256.Sum256` over a byte list, as the final eight words. -/
def sha256Words (msg : List Nat) : Sha8 :=
  let padded := sha256Pad msg
  ((List.range (padded.length / 64)).map
    (fun i => (padded.drop (64 * i)).take 64)).foldl processBlock sha256Init

/-- Big-endian bytes of one word. -/
def wordBytes (w : Nat) : List Nat :=
  [(w / 16777216) % 256, (w / 65536) % 256, (w / 256) % 256, w % 256]

/-- The 32 digest bytes. -/
def sha8Bytes (s : Sha8) : List Nat :=
  wordBytes s.a ++ wordBytes s.b ++ wordBytes s.c ++ wordBytes s.d ++
  wordBytes s.e ++ wordBytes s.f ++ wordBytes s.g ++ wordBytes s.h

/-- The lowercase hexadecimal alphabet used by Go's `%x` verb. -/
def hexDigits : List Char := "0123456789abcdef".toList

/-- Two lowercase hex characters of one byte. -/
def byteToHex (b : Nat) : List Char :=
  [hexDigits.getD (b / 16) '0', hexDigits.getD (b % 16) '0']

/-- `fmt.Sprintf("%x", bytes)`. -/
def bytesToHexChars (bs : List Nat) : List Char := (bs.map byteToHex).flatten

/-- UTF-8 bytes of a string (Go's `[]byte(content)`). -/
def stringBytes (s : String) : List Nat := s.toUTF8.toList.map (fun b => b.toNat)

/-- `fmt.Sprintf("%v", xs)` for a Go string slice: elements joined by
single spaces inside brackets. -/
def goSliceFormat (xs : List String) : String :=
  "[" ++ String.intercalate " " xs ++ "]"

/-- `generateConnectionHash`: hash `"%v|%s|%s|%s|%s"` of
`(interests, project, type, intensity, domainName)` with SHA-256 and keep
the first 16 hex characters. -/
def generateConnectionHash (input : CollisionInput) (domainName : String) : String :=
  let content := goSliceFormat input.UserInterests ++ "|" ++ input.CurrentProject ++ "|" ++
    input.ProjectType ++ "|" ++ input.CollisionIntensity ++ "|" ++ domainName
  ⟨(bytesToHexChars (sha8Bytes (sha256Words (stringBytes content)))).take 16⟩

/-! ## Helper lemmas -/

theorem listSum_nonneg {l : List ℚ} (h : ∀ x ∈ l, 0 ≤ x) : 0 ≤ l.sum := by
  induction l with
  | nil => simp
  | cons a t ih =>
      simp only [List.sum_cons]
      exact add_nonneg (h a (by simp)) (ih (fun x hx => h x (by simp [hx])))

theorem listSum_le_mul_length {l : List ℚ} {c : ℚ} (h : ∀ x ∈ l, x ≤ c) :
    l.sum ≤ c * l.length := by
  induction l with
  | nil => simp
  | cons a t ih =>
      have ha := h a (by simp)
      have ht := ih (fun x hx => h x (by simp [hx]))
      simp only [List.sum_cons, List.length_cons]
      push_cast
      linarith

theorem interestScore_nonneg (domain : CollisionDomain) (interest : String) :
    0 ≤ interestScore domain interest := by
  simp only [interestScore]
  refine le_min ?_ (by norm_num)
  refine add_nonneg (add_nonneg (add_nonneg ?_ ?_) ?_) ?_
  · split <;> norm_num
  · split <;> norm_num
  · refine listSum_nonneg ?_
    intro x hx
    simp only [List.mem_map] at hx
    obtain ⟨k, -, rfl⟩ := hx
    split <;> norm_num
  · split <;> norm_num

theorem interestScore_le_three (domain : CollisionDomain) (interest : String) :
    interestScore domain interest ≤ 3 := by
  simp only [interestScore]
  exact min_le_right _ _

theorem calculateInterestRelevance_nonneg (interests : List String)
    (domain : CollisionDomain) : 0 ≤ calculateInterestRelevance interests domain := by
  simp only [calculateInterestRelevance]
  split
  · norm_num
  · refine div_nonneg ?_ (by positivity)
    exact listSum_nonneg (by
      intro x hx
      simp only [List.mem_map] at hx
      obtain ⟨i, -, rfl⟩ := hx
      exact interestScore_nonneg domain i)

theorem calculateInterestRelevance_le_one (interests : List String)
    (domain : CollisionDomain) : calculateInterestRelevance interests domain ≤ 1 := by
  simp only [calculateInterestRelevance]
  split
  · norm_num
  · rename_i hne
    have hlen : 0 < interests.length := List.length_pos.mpr hne
    have hpos : (0 : ℚ) < 3 * interests.length := by positivity
    rw [div_le_one hpos]
    have := listSum_le_mul_length (l := interests.map (interestScore domain)) (c := 3)
      (by
        intro x hx
        simp only [List.mem_map] at hx
        obtain ⟨i, -, rfl⟩ := hx
        exact interestScore_le_three domain i)
    simpa using this

theorem calculateNoveltyScore_nonneg (interests : List String)
    (domain : CollisionDomain) : 0 ≤ calculateNoveltyScore interests domain := by
  simp only [calculateNoveltyScore]
  have hmax : (0 : ℚ) ≤ max (2/10) (1 - calculateInterestRelevance interests domain) :=
    le_trans (by norm_num) (le_max_left _ _)
  refine le_min ?_ (by norm_num)
  split
  · positivity
  · exact hmax

theorem calculateNoveltyScore_le_one (interests : List String)
    (domain : CollisionDomain) : calculateNoveltyScore interests domain ≤ 1 := by
  simp only [calculateNoveltyScore]
  exact min_le_right _ _

/-! ## Claims -/

/-- **C6** — For every domain `d` and every list of interests `I`, the
interest-relevance score lies in `[0, 1]` (and equals 0 when `I` is empty),
the novelty score lies in `[0, 1]`, and the quality score lies in
`[0, 100]` (for every value of the additive noise draw). -/
theorem C6_score_bounds (interests : List String) (domain : CollisionDomain)
    (input : CollisionInput) (noise : ℚ) :
    (0 ≤ calculateInterestRelevance interests domain ∧
      calculateInterestRelevance interests domain ≤ 1) ∧
    (∀ d2 : CollisionDomain, calculateInterestRelevance [] d2 = 0) ∧
    (0 ≤ calculateNoveltyScore interests domain ∧
      calculateNoveltyScore interests domain ≤ 1) ∧
    (0 ≤ calculateQualityScore input domain noise ∧
      calculateQualityScore input domain noise ≤ 100) := by
  refine ⟨⟨calculateInterestRelevance_nonneg _ _, calculateInterestRelevance_le_one _ _⟩,
    ?_, ⟨calculateNoveltyScore_nonneg _ _, calculateNoveltyScore_le_one _ _⟩, ?_, ?_⟩
  · intro d2
    simp [calculateInterestRelevance]
  · simp only [calculateQualityScore]
    exact le_max_left _ _
  · simp only [calculateQualityScore]
    exact max_le (by norm_num) (min_le_left _ _)

/-- **C7** — The composite selection score equals `w_R·R_p + w_N·N` with
weights `(0.6, 0.4)` for gentle, `(0.4, 0.6)` for moderate and `(0.2, 0.8)`
for radical intensity; in particular the radical novelty weight exceeds its
relevance weight and the gentle relevance weight exceeds its novelty
weight. -/
theorem C7_composite_weights (relevance novelty : ℚ) :
    (calculateAntiEchoChamberScore relevance novelty "gentle" =
        relevance * (6/10) + novelty * (4/10) ∧
      calculateAntiEchoChamberScore relevance novelty "moderate" =
        relevance * (4/10) + novelty * (6/10) ∧
      calculateAntiEchoChamberScore relevance novelty "radical" =
        relevance * (2/10) + novelty * (8/10)) ∧
    ((8/10 : ℚ) > 2/10 ∧ (6/10 : ℚ) > 4/10) := by
  refine ⟨⟨?_, ?_, ?_⟩, by norm_num⟩ <;> simp [calculateAntiEchoChamberScore]

theorem pickByWeight_mem {pool : List DomainMatch} {w : Nat → ℚ} {target : ℚ}
    {m : DomainMatch} :
    ∀ {fuel i : Nat} {cumulative : ℚ},
      pickByWeight pool w target fuel i cumulative = some m → m ∈ pool := by
  intro fuel
  induction fuel with
  | zero => intro i c h; simp [pickByWeight] at h
  | succ rem ih =>
      intro i c h
      simp only [pickByWeight] at h
      split at h
      · obtain ⟨hlt, rfl⟩ := List.getElem?_eq_some.mp h
        exact List.getElem_mem hlt
      · exact ih h

theorem selectWithRandomness_mem {domainMatches : List DomainMatch}
    (hne : domainMatches ≠ []) (intensity : String) (w : Nat → ℚ) (u : ℚ) :
    selectWithRandomness domainMatches intensity w u ∈ domainMatches := by
  match domainMatches, hne with
  | m0 :: rest, _ =>
      simp only [selectWithRandomness]
      split
      · exact pickByWeight_mem (by assumption)
      · exact List.mem_cons_self _ _

theorem isIntensityCompatible_true_iff (domain : CollisionDomain) (intensity : String) :
    isIntensityCompatible domain intensity = true ↔ intensity ∈ domain.Intensity := by
  simp [isIntensityCompatible, List.any_eq_true]

/-- The domain picked by `selectCollisionDomain` comes from the candidate
filter whenever at least one candidate passes it. -/
theorem selectCollisionDomain_mem (domains : List CollisionDomain)
    (input : CollisionInput) (primaryDomain : String) (w : Nat → ℚ) (u : ℚ)
    (h : ∃ d ∈ domains, d.Name ≠ primaryDomain ∧
          isIntensityCompatible d input.CollisionIntensity = true) :
    ∃ d ∈ domains,
      (selectCollisionDomain domains input primaryDomain w u).1 = d ∧
      d.Name ≠ primaryDomain ∧
      isIntensityCompatible d input.CollisionIntensity = true := by
  obtain ⟨d0, hd0mem, hd0ne, hd0compat⟩ := h
  have hc0 : d0 ∈ filterCandidateDomains domains input primaryDomain := by
    refine List.mem_filter.mpr ⟨hd0mem, ?_⟩
    simp [hd0compat, hd0ne]
  simp only [selectCollisionDomain]
  set f : CollisionDomain → DomainMatch := fun domain =>
    let relevance := calculateDomainRelevance input domain
    let novelty := calculateNoveltyScore input.UserInterests domain
    let overall := calculateAntiEchoChamberScore relevance novelty input.CollisionIntensity
    let reasoning := generateReasoningSnippet input.CurrentProject domain relevance novelty
    DomainMatch.mk domain relevance novelty overall reasoning with hf
  have hmapne : (filterCandidateDomains domains input primaryDomain).map f ≠ [] := by
    intro hnil
    rw [List.map_eq_nil_iff] at hnil
    rw [hnil] at hc0
    exact (List.not_mem_nil d0) hc0
  have hsortne :
      ((filterCandidateDomains domains input primaryDomain).map f).mergeSort
        (fun a b => b.OverallScore ≤ a.OverallScore) ≠ [] := by
    intro hnil
    apply hmapne
    have := List.mergeSort_perm ((filterCandidateDomains domains input primaryDomain).map f)
      (fun a b => b.OverallScore ≤ a.OverallScore)
    rw [hnil] at this
    exact this.symm.eq_nil
  have hsel := selectWithRandomness_mem hsortne input.CollisionIntensity w u
  rw [List.mem_mergeSort, List.mem_map] at hsel
  obtain ⟨d, hdmem, hdf⟩ := hsel
  have hdfilter := List.mem_filter.mp hdmem
  refine ⟨d, hdfilter.1, ?_, ?_, ?_⟩
  · rw [← hdf]
  · have := hdfilter.2
    simp only [Bool.and_eq_true, Bool.not_eq_true', beq_eq_false_iff_ne] at this
    exact this.1
  · have := hdfilter.2
    simp only [Bool.and_eq_true] at this
    exact this.2

/-- **C1** — For every generation request for which at least one catalog
domain is admissible (its intensity list contains the requested intensity
and its name differs from the computed primary domain), the returned
`collision_domain` differs from the primary domain chosen for the same
request, and the chosen domain's intensity list contains the request's
intensity. -/
theorem C1_collision_differs_from_primary (domains : List CollisionDomain)
    (input : CollisionInput) (w : Nat → ℚ) (u noise : ℚ) (kidx : Nat)
    (newId : String) (now : Int)
    (h : ∃ d ∈ domains,
          input.CollisionIntensity ∈ d.Intensity ∧
          d.Name ≠ selectPrimaryDomain domains input.UserInterests) :
    ∃ r, generateCollision domains input w u noise kidx newId now = Except.ok r ∧
      r.PrimaryDomain = selectPrimaryDomain domains input.UserInterests ∧
      r.CollisionDomain ≠ r.PrimaryDomain ∧
      ∃ d ∈ domains, d.Name = r.CollisionDomain ∧
        input.CollisionIntensity ∈ d.Intensity := by
  obtain ⟨d0, hd0mem, hd0int, hd0ne⟩ := h
  have hsel := selectCollisionDomain_mem domains input
    (selectPrimaryDomain domains input.UserInterests) w u
    ⟨d0, hd0mem, hd0ne, (isIntensityCompatible_true_iff d0 _).mpr hd0int⟩
  obtain ⟨d, hdmem, hdeq, hdne, hdcompat⟩ := hsel
  refine ⟨_, rfl, ?_, ?_, ?_⟩
  · simp [generateCollision, enrichCollisionResult]
  · simp only [generateCollision, enrichCollisionResult]
    simpa [hdeq] using hdne
  · refine ⟨d, hdmem, ?_, (isIntensityCompatible_true_iff d _).mp hdcompat⟩
    simp [generateCollision, enrichCollisionResult, hdeq]

/-- **C5** — For every valid request evaluated against an empty catalog, or
against an intensity that no catalog domain admits, generation succeeds
with no error and the result's `collision_domain` equals the sentinel
`"Innovation"`; moreover the engine never returns an error, so the
handler's `collision_generation_failed` branch is unreachable. -/
theorem C5_sentinel_and_no_error (domains : List CollisionDomain)
    (input : CollisionInput) (w : Nat → ℚ) (u noise : ℚ) (kidx : Nat)
    (newId : String) (now : Int)
    (h : domains = [] ∨
          ∀ d ∈ domains, isIntensityCompatible d input.CollisionIntensity = false) :
    (∃ r, generateCollision domains input w u noise kidx newId now = Except.ok r ∧
       r.CollisionDomain = "Innovation") ∧
    (∀ (domains2 : List CollisionDomain) (input2 : CollisionInput) (w2 : Nat → ℚ)
       (u2 noise2 : ℚ) (kidx2 : Nat) (newId2 : String) (now2 : Int),
       handleGenerateResult (generateCollision domains2 input2 w2 u2 noise2 kidx2 newId2 now2) ≠
         GenOutcome.genFailed) := by
  constructor
  · have hfilter : filterCandidateDomains domains input
        (selectPrimaryDomain domains input.UserInterests) = [] := by
      rcases h with rfl | hall
      · rfl
      · refine List.filter_eq_nil_iff.mpr ?_
        intro d hd
        simp [hall d hd]
    refine ⟨_, rfl, ?_⟩
    simp [generateCollision, enrichCollisionResult, selectCollisionDomain, hfilter,
      selectWithRandomness, fallbackMatch]
  · intro domains2 input2 w2 u2 noise2 kidx2 newId2 now2 hcon
    simp [generateCollision, handleGenerateResult] at hcon

/-! Sample data for concrete instantiations. -/

/-- Sample catalog domain admitting only the gentle intensity. -/
def sampleBiomimicry : CollisionDomain :=
  { ID := "1", Name := "Biomimicry", Category := "Nature",
    Description := "How nature solves problems", Examples := [],
    Keywords := [], Intensity := ["gentle", "moderate"], Tier := "basic" }

/-- Sample catalog domain admitting only the radical intensity. -/
def sampleQuantum : CollisionDomain :=
  { ID := "2", Name := "Quantum Physics", Category := "Physics",
    Description := "Quantum mechanics", Examples := [],
    Keywords := [], Intensity := ["radical"], Tier := "premium" }

/-- Sample radical-intensity request. -/
def sampleInput : CollisionInput :=
  { UserInterests := [], CurrentProject := "AI recommendation system",
    ProjectType := "product", CollisionIntensity := "radical" }

theorem C1_collision_differs_from_primary_witness :
    ∃ r, generateCollision [sampleBiomimicry, sampleQuantum] sampleInput
        (fun _ => 1) 0 0 0 "id1" 0 = Except.ok r ∧
      r.PrimaryDomain = selectPrimaryDomain [sampleBiomimicry, sampleQuantum]
        sampleInput.UserInterests ∧
      r.CollisionDomain ≠ r.PrimaryDomain ∧
      ∃ d ∈ [sampleBiomimicry, sampleQuantum], d.Name = r.CollisionDomain ∧
        sampleInput.CollisionIntensity ∈ d.Intensity :=
  C1_collision_differs_from_primary [sampleBiomimicry, sampleQuantum] sampleInput
    (fun _ => 1) 0 0 0 "id1" 0
    ⟨sampleQuantum, by decide, by decide, by decide⟩

theorem C5_sentinel_and_no_error_witness :
    (∃ r, generateCollision [] sampleInput (fun _ => 1) 0 0 0 "id1" 0 = Except.ok r ∧
       r.CollisionDomain = "Innovation") ∧
    (∀ (domains2 : List CollisionDomain) (input2 : CollisionInput) (w2 : Nat → ℚ)
       (u2 noise2 : ℚ) (kidx2 : Nat) (newId2 : String) (now2 : Int),
       handleGenerateResult (generateCollision domains2 input2 w2 u2 noise2 kidx2 newId2 now2) ≠
         GenOutcome.genFailed) :=
  C5_sentinel_and_no_error [] sampleInput (fun _ => 1) 0 0 0 "id1" 0 (Or.inl rfl)

theorem zRemRangeByScore_append (l1 l2 : List RLEntry) (hi : Int) :
    zRemRangeByScore (l1 ++ l2) hi =
      zRemRangeByScore l1 hi ++ zRemRangeByScore l2 hi := by
  simp [zRemRangeByScore, List.filter_append]

theorem zRemRangeByScore_idem (l : List RLEntry) (hi : Int) :
    zRemRangeByScore (zRemRangeByScore l hi) hi = zRemRangeByScore l hi := by
  simp only [zRemRangeByScore, List.filter_filter, Bool.and_self]

theorem zAdd_append {l : List RLEntry} {m s : Int}
    (h : ∀ e ∈ l, e.member ≠ m) : zAdd l m s = l ++ [⟨m, s⟩] := by
  simp only [zAdd]
  rw [if_neg]
  simp only [List.any_eq_true, beq_iff_eq, not_exists, not_and]
  intro e he
  exact h e he

/-- **C2** — For every principal and every rate-limit check with window `W`
seconds and limit `L`, if `c` requests are already recorded inside the
current window then the check denies exactly when `c ≥ L`, otherwise it
records the new request's timestamp and extends the key TTL to `W`; and
the remaining count `GetRateLimitStatus` reports immediately after the
decision equals `max 0 (L − c − 1)`. -/
theorem C2_rate_limit_check (st : RLState) (now nano W L : Int)
    (entries : List RLEntry) (hW : 0 < W)
    (he : entries = zRemRangeByScore st.entries (now - W))
    (hfresh : ∀ e ∈ entries, e.member ≠ nano) :
    ((CheckRateLimit st now nano W L).1 = false ↔ L ≤ (entries.length : Int)) ∧
    (¬ L ≤ (entries.length : Int) →
      (CheckRateLimit st now nano W L).2 =
        { entries := entries ++ [⟨nano, now⟩], ttl := W }) ∧
    (GetRateLimitStatus (CheckRateLimit st now nano W L).2 now W L).1 =
      max (L - (entries.length : Int) - 1) 0 := by
  have hidem : zRemRangeByScore entries (now - W) = entries := by
    rw [he]; exact zRemRangeByScore_idem _ _
  have hkeep : zRemRangeByScore [(⟨nano, now⟩ : RLEntry)] (now - W) =
      [(⟨nano, now⟩ : RLEntry)] := by
    simp only [zRemRangeByScore, List.filter_cons, List.filter_nil]
    rw [if_pos]
    simp only [decide_eq_true_eq]
    omega
  by_cases hL : L ≤ (entries.length : Int)
  · refine ⟨by simp [CheckRateLimit, ← he, hL], by intro hcon; exact absurd hL hcon, ?_⟩
    simp only [CheckRateLimit, ← he, if_pos hL, GetRateLimitStatus, hidem]
    omega
  · have hadd := zAdd_append (m := nano) (s := now) hfresh
    refine ⟨by simp [CheckRateLimit, ← he, hL], fun _ => ?_, ?_⟩
    · simp [CheckRateLimit, ← he, if_neg hL, hadd]
    · simp only [CheckRateLimit, ← he, if_neg hL, GetRateLimitStatus, hadd]
      rw [zRemRangeByScore_append, hidem, hkeep]
      simp only [List.length_append, List.length_singleton]
      push_cast
      omega

theorem C2_rate_limit_check_witness :
    (0 : Int) < 60 ∧
    ((CheckRateLimit ⟨[⟨100, 50⟩], 0⟩ 60 200 60 3).1 = false ↔
      (3 : Int) ≤ (([(⟨100, 50⟩ : RLEntry)]).length : Int)) ∧
    (¬ (3 : Int) ≤ (([(⟨100, 50⟩ : RLEntry)]).length : Int) →
      (CheckRateLimit ⟨[⟨100, 50⟩], 0⟩ 60 200 60 3).2 =
        { entries := [⟨100, 50⟩, ⟨200, 60⟩], ttl := 60 }) ∧
    (GetRateLimitStatus (CheckRateLimit ⟨[⟨100, 50⟩], 0⟩ 60 200 60 3).2 60 60 3).1 =
      max ((3 : Int) - (([(⟨100, 50⟩ : RLEntry)]).length : Int) - 1) 0 := by
  refine ⟨by norm_num, ?_⟩
  exact C2_rate_limit_check ⟨[⟨100, 50⟩], 0⟩ 60 200 60 3 [⟨100, 50⟩]
    (by norm_num) (by decide) (by decide)

/-- **C3** (evaluation at the failing input) — For a free-tier principal
whose usage-cache lookup is a *miss* (`GetCachedUserUsage` returns the Go
pair `nil, nil`), `UsageLimitMiddleware` does not fall back to the
database (the fallback is guarded by `err != nil` only): it reaches
`usage.CollisionCount` with `usage == nil` and panics, whatever the
database would have answered — it never terminates with a limit
decision. -/
theorem C3_cache_miss_panics (dbRes : Except Unit UserUsage) :
    usageLimitMiddleware "free" (Except.ok none) dbRes = UsageOutcome.nilPanic := by
  simp [usageLimitMiddleware, usageDecision, usageLimits]

/-- **C4** (evaluation at the failing input) — On the ordinary at-quota
path — a free principal whose usage-cache lookup is a miss, which is the
steady state because the middleware never populates the cache on a healthy
read and the handler invalidates `user:usage:{id}` after every
increment — the generate pipeline never reaches the 402
`usage_limit_exceeded` denial, whatever the database holds: the usage
middleware dereferences the nil cache-miss record and panics (Fiber's
`recover` middleware surfaces this as a 500).  The claimed denial with a
402 envelope does not happen. -/
theorem C4_at_quota_cache_miss_panics (st : ServerState) (userId : String)
    (dbRes : Except Unit UserUsage) (config : RateLimitConfig)
    (checkRes : Except Unit Bool) (domains : List CollisionDomain)
    (input : CollisionInput) (w : Nat → ℚ) (uRand noise : ℚ) (kidx : Nat)
    (newId sessionId : String) (now : Int) :
    generatePipeline st "free" userId (Except.ok none) dbRes config checkRes domains input
        w uRand noise kidx newId sessionId now =
      (PipelineOutcome.panicked, st) := by
  simp [generatePipeline, usageLimitMiddleware, usageDecision, usageLimits]

/-- The denial path itself is correct: when the usage middleware does
obtain a usage record (a cache hit, or the database fallback after a cache
error) with a weekly count of at least 5, a free-tier generation request
is denied with the structured error `usage_limit_exceeded` and
HTTP-equivalent code 402, and the denial leaves the server state
unchanged — no session row is inserted and the usage count is not
incremented.  Only the ordinary cache-miss lookup bypasses this path (see
the nil-dereference theorem above). -/
theorem usageDeny_when_record_delivered (st : ServerState) (userId : String)
    (usage : UserUsage) (cacheRes : Except Unit (Option UserUsage))
    (dbRes : Except Unit UserUsage) (config : RateLimitConfig)
    (checkRes : Except Unit Bool) (domains : List CollisionDomain)
    (input : CollisionInput) (w : Nat → ℚ) (uRand noise : ℚ) (kidx : Nat)
    (newId sessionId : String) (now : Int)
    (hlook : cacheRes = Except.ok (some usage) ∨
             (cacheRes = Except.error () ∧ dbRes = Except.ok usage))
    (hcount : 5 ≤ usage.CollisionCount) :
    generatePipeline st "free" userId cacheRes dbRes config checkRes domains input
        w uRand noise kidx newId sessionId now =
      (PipelineOutcome.errorResp "usage_limit_exceeded" 402, st) := by
  have hmw : usageLimitMiddleware "free" cacheRes dbRes =
      UsageOutcome.deny "usage_limit_exceeded" 402 := by
    rcases hlook with rfl | ⟨rfl, rfl⟩ <;>
      simp [usageLimitMiddleware, usageDecision, usageLimits, hcount]
  simp [generatePipeline, hmw]

/-- **C8** — Whenever the rate-limit cache check is actually consulted
(i.e. the premium skip does not apply) and the cache tier returns an
error, the limiter fails open: the request proceeds and the failure is
logged, rather than being denied or surfaced to the client. -/
theorem C8_rate_limiter_fails_open (tier : String) (config : RateLimitConfig) (e : Unit)
    (h : ¬(config.SkipPremium = true ∧ (tier = "pro" ∨ tier = "team"))) :
    rateLimitMiddleware tier config (Except.error e) = (RLOutcome.next, true) := by
  simp only [rateLimitMiddleware]
  rw [if_neg]
  simp only [Bool.and_eq_true, Bool.or_eq_true, beq_iff_eq]
  exact h

theorem C8_rate_limiter_fails_open_witness :
    rateLimitMiddleware "free" ⟨60, 10, true⟩ (Except.error ()) = (RLOutcome.next, true) :=
  C8_rate_limiter_fails_open "free" ⟨60, 10, true⟩ () (by decide)

/-- Sample collision result for concrete sessions. -/
def sampleResult : CollisionResult :=
  { ID := "r1", PrimaryDomain := "Biomimicry", CollisionDomain := "Quantum Physics",
    Connection := "c", SparkQuestions := [], Examples := [], NextSteps := [],
    QualityScore := 0, Timestamp := 0, Rating := none, Notes := none }

/-- Sample persisted session owned by `"alice"`. -/
def sampleSession : CollisionSession :=
  { ID := "s1", UserID := "alice", InputData := sampleInput,
    CollisionResult := sampleResult, UserRating := none, ExplorationNotes := none }

/-- **C10** (counterexample) — A well-formed rating request (rating 3) on a
session that exists but is owned by another principal returns the success
message and leaves the table untouched; it does not fail with 404. -/
theorem C10_rate_unowned_counterexample :
    (rateCollisionHandler [sampleSession] "s1" "bob" true 3 none false) =
      (RateOutcome.success "Rating saved successfully", [sampleSession]) := by
  decide

/-- **C10** (amended) — For every well-formed rating request
(rating in `[1..5]`, parsable session id, healthy database) whose session
id does not exist or is not owned by the authenticated principal, the
handler reports success ("Rating saved successfully") and the sessions
table is unchanged (the UPDATE matches zero rows); no 404 is produced. -/
theorem C10_rate_unowned_reports_success (sessions : List CollisionSession)
    (sessionIDStr userID : String) (rating : Int) (notes : Option String)
    (h1 : 1 ≤ rating) (h2 : rating ≤ 5)
    (h3 : ∀ s ∈ sessions, ¬(s.ID = sessionIDStr ∧ s.UserID = userID)) :
    rateCollisionHandler sessions sessionIDStr userID true rating notes false =
      (RateOutcome.success "Rating saved successfully", sessions) := by
  have hdb : dbRateCollision sessions sessionIDStr userID rating notes = sessions := by
    simp only [dbRateCollision]
    have hid : ∀ s ∈ sessions,
        (if s.ID == sessionIDStr && s.UserID == userID then
          { s with UserRating := some rating, ExplorationNotes := notes } else s) = s := by
      intro s hs
      rw [if_neg]
      simp only [Bool.and_eq_true, beq_iff_eq]
      exact h3 s hs
    rw [List.map_congr_left hid]
    simp
  simp [rateCollisionHandler, h1, h2, hdb]

theorem C10_rate_unowned_reports_success_witness :
    rateCollisionHandler [sampleSession] "s2" "alice" true 5 none false =
      (RateOutcome.success "Rating saved successfully", [sampleSession]) :=
  C10_rate_unowned_reports_success [sampleSession] "s2" "alice" 5 none
    (by norm_num) (by norm_num) (by decide)

theorem hexDigits_getD_mem (n : Nat) : hexDigits.getD n '0' ∈ hexDigits := by
  by_cases h : n < hexDigits.length
  · rw [List.getD_eq_getElem _ _ h]
    exact List.getElem_mem h
  · rw [List.getD_eq_default _ _ (le_of_not_lt h)]
    decide

theorem byteToHex_mem {b : Nat} {c : Char} (h : c ∈ byteToHex b) : c ∈ hexDigits := by
  simp only [byteToHex, List.mem_cons, List.not_mem_nil, or_false] at h
  rcases h with rfl | rfl
  · exact hexDigits_getD_mem _
  · exact hexDigits_getD_mem _

theorem bytesToHexChars_length (bs : List Nat) :
    (bytesToHexChars bs).length = 2 * bs.length := by
  induction bs with
  | nil => rfl
  | cons b t ih =>
      simp only [bytesToHexChars, List.map_cons, List.flatten_cons, List.length_append,
        List.length_cons] at *
      simp [byteToHex, ih]
      omega

theorem bytesToHexChars_mem {bs : List Nat} {c : Char}
    (h : c ∈ bytesToHexChars bs) : c ∈ hexDigits := by
  simp only [bytesToHexChars, List.mem_flatten, List.mem_map] at h
  obtain ⟨part, ⟨b, -, rfl⟩, hc⟩ := h
  exact byteToHex_mem hc

theorem sha8Bytes_length (s : Sha8) : (sha8Bytes s).length = 32 := by
  simp [sha8Bytes, wordBytes]

/-- **C9** — `generateConnectionHash` is a pure function of its inputs: two
calls with equal collision input and equal domain name return equal
results, and every result is a 16-character lowercase hexadecimal
string. -/
theorem C9_connection_hash_pure_hex (input : CollisionInput) (domainName : String) :
    (generateConnectionHash input domainName).length = 16 ∧
    (∀ c ∈ (generateConnectionHash input domainName).data, c ∈ hexDigits) ∧
    (∀ (input2 : CollisionInput) (name2 : String),
       input = input2 → domainName = name2 →
       generateConnectionHash input domainName = generateConnectionHash input2 name2) := by
  refine ⟨?_, ?_, ?_⟩
  · show (String.mk _).length = 16
    simp only [String.length, List.length_take, bytesToHexChars_length, sha8Bytes_length]
    norm_num
  · intro c hc
    have hc2 : c ∈ bytesToHexChars (sha8Bytes (sha256Words (stringBytes _))) :=
      List.take_subset 16 _ hc
    exact bytesToHexChars_mem hc2
  · intro input2 name2 h1 h2
    rw [h1, h2]

theorem C9_connection_hash_pure_hex_witness :
    generateConnectionHash sampleInput "Quantum Physics" =
      generateConnectionHash sampleInput "Quantum Physics" ∧
    (generateConnectionHash sampleInput "Quantum Physics").length = 16 :=
  ⟨(C9_connection_hash_pure_hex sampleInput "Quantum Physics").2.2 sampleInput
      "Quantum Physics" rfl rfl,
   (C9_connection_hash_pure_hex sampleInput "Quantum Physics").1⟩

end Collision
